import Mathlib

/-!
Shallow embedding of `main.go` of the SSOReady SAML demo app.

The program registers four HTTP handlers on a mux:
  * `GET /{$}`               — renders the index page from the `email` cookie;
  * `GET /logout`            — clears the `email` cookie and redirects 302 to `/`;
  * `GET /saml-redirect`     — cuts the `email` query parameter at the first
    `@`, calls the broker's `SAML.GetSAMLRedirectURL` with the domain, and
    redirects 302 to the returned URL (panicking on a broker error);
  * `GET /ssoready-callback` — reads the `saml_access_code` query parameter,
    calls the broker's `SAML.RedeemSAMLAccessCode` with it, sets an `email`
    cookie to the redeemed identity and redirects 302 to `/` (panicking on a
    broker error).

The two broker operations are external collaborators; they are modelled as
function parameters of type `String → Except String String` (argument in,
either a result or an error out), matching the Go pattern
`res, err := client.SAML.…(...)`.
-/

/-- An incoming HTTP request, restricted to the data the handlers read:
the path, the URL query parameters in order, and the request cookies in
order. -/
structure Request where
  path : String
  query : List (String × String)
  cookies : List (String × String)
deriving DecidableEq

/-- Go `r.URL.Query().Get(k)`: the first value associated with key `k`,
or `""` when the key is absent. -/
def getQuery (r : Request) (k : String) : String :=
  match r.query.find? (fun p => p.1 == k) with
  | some p => p.2
  | none => ""

/-- Go `r.Cookie(k)`: the first request cookie named `k`, or an error
(`none`) when absent. -/
def getCookie (r : Request) (k : String) : Option String :=
  (r.cookies.find? (fun p => p.1 == k)).map (fun p => p.2)

/-- A `Set-Cookie` written by `http.SetCookie`, restricted to the fields the
program uses: `Name`, `Value` and `MaxAge` (Go zero value `0` when the field
is not set; `-1` deletes the cookie). -/
structure SetCookie where
  name : String
  value : String
  maxAge : Int
deriving DecidableEq

/-- What a single handler invocation writes to the response:
  * `html greeting` — the index page; the page is a fixed template whose only
    request-dependent part is the greeting rendered by
    `{{ or .Email "logged-out user" }}`, so only that part is kept;
  * `redirect cs loc status` — the cookies set via `http.SetCookie` (in
    order), then `http.Redirect(w, r, loc, status)`;
  * `panicked cs msg` — the handler reached `panic(err)`; `cs` are the
    cookies already written before the panic and `msg` the panic payload.
    No redirect and no further response is produced. -/
inductive HandlerOutcome where
  | html (greeting : String)
  | redirect (setCookies : List SetCookie) (location : String) (status : Nat)
  | panicked (setCookies : List SetCookie) (msg : String)
deriving DecidableEq

/-- Result of one invocation of a broker-calling handler: the arguments of
the broker calls it made, in order, together with the response outcome. -/
structure HandlerResult where
  calls : List String
  outcome : HandlerOutcome
deriving DecidableEq

/-- `http.StatusFound`. -/
def statusFound : Nat := 302

/-- Go `strings.Cut(s, "@")` on the character list of `s`: `some (before,
after)` splitting at the first `@`, `none` when there is no `@` (in which
case Go returns `(s, "", false)`). -/
def cutAt : List Char → Option (List Char × List Char)
  | [] => none
  | c :: rest =>
    if c = '@' then some ([], rest)
    else (cutAt rest).map (fun p => (c :: p.1, p.2))

/-- The `domain` of `_, domain, _ := strings.Cut(email, "@")` in the
`/saml-redirect` handler: the substring after the first `@`, or `""` when
the input has no `@`. -/
def emailDomain (email : String) : String :=
  match cutAt email.data with
  | some p => String.mk p.2
  | none => ""

/-- The `GET /{$}` handler: reads the `email` cookie (empty string when
absent) and renders the index template, whose greeting is
`{{ or .Email "logged-out user" }}` — the cookie value when it is non-empty
(Go templates treat the empty string as falsy), else `logged-out user`. -/
def indexHandler (r : Request) : HandlerOutcome :=
  let email :=
    match getCookie r "email" with
    | some v => v
    | none => ""
  .html (if email = "" then "logged-out user" else email)

/-- The `GET /logout` handler: sets the `email` cookie with `MaxAge: -1`
(deleting it) and redirects 302 to `/`. -/
def logoutHandler (_ : Request) : HandlerOutcome :=
  .redirect [⟨"email", "", -1⟩] "/" statusFound

/-- The `GET /saml-redirect` handler: cuts the `email` query parameter at
the first `@`, calls `SAML.GetSAMLRedirectURL` with the domain as the
organization external ID, and redirects 302 to the returned URL; on a broker
error it panics. -/
def samlRedirectHandler (getSAMLRedirectURL : String → Except String String)
    (r : Request) : HandlerResult :=
  let domain := emailDomain (getQuery r "email")
  match getSAMLRedirectURL domain with
  | .ok url => ⟨[domain], .redirect [] url statusFound⟩
  | .error e => ⟨[domain], .panicked [] e⟩

/-- The `GET /ssoready-callback` handler: reads the `saml_access_code`
query parameter, calls `SAML.RedeemSAMLAccessCode` with it; on success it
sets the `email` cookie to the redeemed email and redirects 302 to `/`; on a
broker error it panics (before any cookie is written). -/
def callbackHandler (redeemSAMLAccessCode : String → Except String String)
    (r : Request) : HandlerResult :=
  let samlAccessCode := getQuery r "saml_access_code"
  match redeemSAMLAccessCode samlAccessCode with
  | .ok email => ⟨[samlAccessCode], .redirect [⟨"email", email, 0⟩] "/" statusFound⟩
  | .error e => ⟨[samlAccessCode], .panicked [] e⟩

/-- Browser cookie-jar semantics for one `Set-Cookie` header: a negative
`MaxAge` deletes the cookie, otherwise the cookie is replaced by the new
value. -/
def applySetCookie (jar : List (String × String)) (c : SetCookie) :
    List (String × String) :=
  let rest := jar.filter (fun p => p.1 != c.name)
  if c.maxAge < 0 then rest else (c.name, c.value) :: rest

/-- The browser cookie jar after one handler response: the `Set-Cookie`
headers of the response applied in order (the index page sets none). -/
def applyOutcome (jar : List (String × String)) : HandlerOutcome → List (String × String)
  | .html _ => jar
  | .redirect cs _ _ => cs.foldl applySetCookie jar
  | .panicked cs _ => cs.foldl applySetCookie jar

/-- The value of cookie `k` in a browser jar, if present. -/
def jarLookup (jar : List (String × String)) (k : String) : Option String :=
  (jar.find? (fun p => p.1 == k)).map (fun p => p.2)

/-- A request to `/saml-redirect` with the given `email` query parameter. -/
def reqSaml (e : String) : Request :=
  ⟨"/saml-redirect", [("email", e)], []⟩

/-- A request to `/ssoready-callback` with the given `saml_access_code`
query parameter. -/
def reqCallback (c : String) : Request :=
  ⟨"/ssoready-callback", [("saml_access_code", c)], []⟩

/-- A request to `/ssoready-callback` with no query parameters at all. -/
def reqCallbackEmpty : Request :=
  ⟨"/ssoready-callback", [], []⟩

/-- A demo broker that resolves every organization to a redirect URL. -/
def demoOkBroker : String → Except String String :=
  fun s => Except.ok ("https://idp.example/login?org=" ++ s)

/-- A demo broker that fails every call. -/
def demoErrBroker : String → Except String String :=
  fun _ => Except.error "broker failure"

/-- A demo broker that redeems every access code to the same identity. -/
def demoRedeemOk : String → Except String String :=
  fun _ => Except.ok "john.doe@example.com"

/-! ### Helper lemmas -/

theorem getQuery_reqSaml (e : String) : getQuery (reqSaml e) "email" = e := rfl

theorem getQuery_reqCallback (c : String) :
    getQuery (reqCallback c) "saml_access_code" = c := rfl

theorem samlRedirect_calls_eq (broker : String → Except String String)
    (r : Request) :
    (samlRedirectHandler broker r).calls = [emailDomain (getQuery r "email")] := by
  cases h : broker (emailDomain (getQuery r "email")) <;>
    simp [samlRedirectHandler, h]

theorem callback_calls_eq (broker : String → Except String String) (r : Request) :
    (callbackHandler broker r).calls = [getQuery r "saml_access_code"] := by
  cases h : broker (getQuery r "saml_access_code") <;>
    simp [callbackHandler, h]

theorem cutAt_of_not_mem (l : List Char) (h : '@' ∉ l) : cutAt l = none := by
  induction l with
  | nil => rfl
  | cons c rest ih =>
    simp only [List.mem_cons, not_or] at h
    have hc : ¬ c = '@' := fun hc => h.1 hc.symm
    simp [cutAt, hc, ih h.2]

theorem cutAt_append (l d : List Char) (h : '@' ∉ l) :
    cutAt (l ++ '@' :: d) = some (l, d) := by
  induction l with
  | nil => simp [cutAt]
  | cons c rest ih =>
    simp only [List.mem_cons, not_or] at h
    have hc : ¬ c = '@' := fun hc => h.1 hc.symm
    simp [cutAt, hc, ih h.2]

theorem emailDomain_of_no_at (e : String) (h : '@' ∉ e.data) :
    emailDomain e = "" := by
  unfold emailDomain
  rw [cutAt_of_not_mem e.data h]

theorem emailDomain_split (lpart dpart : String) (h : '@' ∉ lpart.data) :
    emailDomain (lpart ++ "@" ++ dpart) = dpart := by
  unfold emailDomain
  have hdata : (lpart ++ "@" ++ dpart).data = lpart.data ++ '@' :: dpart.data := by
    simp [String.data_append]
  rw [hdata, cutAt_append lpart.data dpart.data h]

/-! ### Claims -/

/-- C1: for every request to `GET /saml-redirect` whose `email` query
parameter resolves (via the substring after the first `@`) to an
organization for which the broker's `GetSAMLRedirectURL` call succeeds with
URL `url`, the handler issues exactly one HTTP redirect, with status 302 and
location `url`, sets no cookies, and issues no other response; the whole
handler result is that single redirect after one broker call. -/
theorem samlRedirect_success (broker : String → Except String String)
    (r : Request) (url : String)
    (h : broker (emailDomain (getQuery r "email")) = Except.ok url) :
    samlRedirectHandler broker r
      = ⟨[emailDomain (getQuery r "email")], .redirect [] url 302⟩ := by
  simp [samlRedirectHandler, h, statusFound]

/-- Witness for C1 at a concrete broker and request. -/
theorem samlRedirect_success_witness :
    demoOkBroker (emailDomain (getQuery (reqSaml "john.doe@example.com") "email"))
        = Except.ok "https://idp.example/login?org=example.com" ∧
      samlRedirectHandler demoOkBroker (reqSaml "john.doe@example.com")
        = ⟨["example.com"],
           .redirect [] "https://idp.example/login?org=example.com" 302⟩ :=
  ⟨rfl, samlRedirect_success demoOkBroker (reqSaml "john.doe@example.com")
    "https://idp.example/login?org=example.com" rfl⟩

/-- C2: for every request to `GET /ssoready-callback` whose
`saml_access_code` query parameter the broker's `RedeemSAMLAccessCode`
redeems successfully to identity `e`, the handler sets a cookie named
`email` with value `e` and issues an HTTP 302 redirect to `/`. -/
theorem callback_success (broker : String → Except String String)
    (r : Request) (e : String)
    (h : broker (getQuery r "saml_access_code") = Except.ok e) :
    callbackHandler broker r
      = ⟨[getQuery r "saml_access_code"],
         .redirect [⟨"email", e, 0⟩] "/" 302⟩ := by
  simp [callbackHandler, h, statusFound]

/-- Witness for C2 at a concrete broker and request. -/
theorem callback_success_witness :
    demoRedeemOk (getQuery (reqCallback "abc123") "saml_access_code")
        = Except.ok "john.doe@example.com" ∧
      callbackHandler demoRedeemOk (reqCallback "abc123")
        = ⟨["abc123"],
           .redirect [⟨"email", "john.doe@example.com", 0⟩] "/" 302⟩ :=
  ⟨rfl, callback_success demoRedeemOk (reqCallback "abc123")
    "john.doe@example.com" rfl⟩

/-- C3: for every request to `GET /ssoready-callback` for which the broker's
`RedeemSAMLAccessCode` call returns an error, the handler panics with that
error before any `Set-Cookie` is written: no `email` cookie is set, no
redirect to `/` is issued, and the browser's cookie jar (its session) is
unchanged. The panic is the surfacing of the redemption error
(`CodeRedemptionError` in the spec's taxonomy). -/
theorem callback_error (broker : String → Except String String)
    (r : Request) (err : String)
    (h : broker (getQuery r "saml_access_code") = Except.error err) :
    callbackHandler broker r
        = ⟨[getQuery r "saml_access_code"], .panicked [] err⟩ ∧
      ∀ jar, applyOutcome jar (callbackHandler broker r).outcome = jar := by
  have h1 : callbackHandler broker r
      = ⟨[getQuery r "saml_access_code"], .panicked [] err⟩ := by
    simp [callbackHandler, h]
  exact ⟨h1, fun jar => by rw [h1]; rfl⟩

/-- Witness for C3 at a concrete failing broker and request. -/
theorem callback_error_witness :
    demoErrBroker (getQuery (reqCallback "expired-code") "saml_access_code")
        = Except.error "broker failure" ∧
      callbackHandler demoErrBroker (reqCallback "expired-code")
        = ⟨["expired-code"], .panicked [] "broker failure"⟩ :=
  ⟨rfl, (callback_error demoErrBroker (reqCallback "expired-code")
    "broker failure" rfl).1⟩

/-- C4 counterexample: on the request `GET /saml-redirect?email=john.doe`
(an email with no `@`, hence no resolvable organization component), the
handler does not fail with `InvalidOrganizationInput`: it asks the broker
for the empty-string organization, and (when the broker succeeds) issues a
redirect. -/
theorem samlRedirect_noat_counterexample :
    (samlRedirectHandler demoOkBroker (reqSaml "john.doe")).calls = [""] ∧
    (samlRedirectHandler demoOkBroker (reqSaml "john.doe")).outcome
      = .redirect [] "https://idp.example/login?org=" 302 := by
  constructor <;> rfl

/-- C4 (amended): for every request to `GET /saml-redirect` whose `email`
query parameter contains no `@` (in particular when it is empty), the
handler performs no validation: it calls the broker exactly once with the
empty-string organization identifier, redirects to the broker's URL when
the call succeeds, and panics (issuing no redirect) when it fails. -/
theorem samlRedirect_noat_amended (broker : String → Except String String)
    (r : Request) (h : '@' ∉ (getQuery r "email").data) :
    (samlRedirectHandler broker r).calls = [""] ∧
    (∀ url, broker "" = Except.ok url →
      (samlRedirectHandler broker r).outcome = .redirect [] url 302) ∧
    (∀ msg, broker "" = Except.error msg →
      (samlRedirectHandler broker r).outcome = .panicked [] msg) := by
  have hd := emailDomain_of_no_at _ h
  refine ⟨?_, ?_, ?_⟩
  · rw [samlRedirect_calls_eq, hd]
  · intro url hu
    simp [samlRedirectHandler, hd, hu, statusFound]
  · intro msg hm
    simp [samlRedirectHandler, hd, hm]

/-- Witness for the amended C4 at a concrete broker and request. -/
theorem samlRedirect_noat_witness :
    '@' ∉ (getQuery (reqSaml "noatsign") "email").data ∧
    (samlRedirectHandler demoErrBroker (reqSaml "noatsign")).calls = [""] ∧
    (samlRedirectHandler demoErrBroker (reqSaml "noatsign")).outcome
      = .panicked [] "broker failure" :=
  ⟨by decide,
   (samlRedirect_noat_amended demoErrBroker (reqSaml "noatsign") (by decide)).1,
   (samlRedirect_noat_amended demoErrBroker (reqSaml "noatsign") (by decide)).2.2
     "broker failure" rfl⟩

/-- C5 counterexample: on a request to `GET /ssoready-callback` with no
`saml_access_code` query parameter at all, and a broker that accepts the
empty code, the handler does not fail with `MissingAccessCode`: it redeems
the empty string, sets the `email` session cookie and redirects 302 to
`/`. -/
theorem callback_missing_counterexample :
    callbackHandler demoRedeemOk reqCallbackEmpty
      = ⟨[""], .redirect [⟨"email", "john.doe@example.com", 0⟩] "/" 302⟩ := by
  rfl

/-- C5 (amended): for every request to `GET /ssoready-callback` whose
`saml_access_code` query parameter is absent or empty, the handler performs
no presence check: it calls the broker exactly once with the empty-string
code; it sets the cookie and redirects to `/` iff that call succeeds, and
panics (no cookie, no redirect) iff it fails. -/
theorem callback_missing_amended (broker : String → Except String String)
    (r : Request) (h : getQuery r "saml_access_code" = "") :
    (callbackHandler broker r).calls = [""] ∧
    (∀ e, broker "" = Except.ok e →
      (callbackHandler broker r).outcome = .redirect [⟨"email", e, 0⟩] "/" 302) ∧
    (∀ msg, broker "" = Except.error msg →
      (callbackHandler broker r).outcome = .panicked [] msg) := by
  refine ⟨?_, ?_, ?_⟩
  · rw [callback_calls_eq, h]
  · intro e he
    simp [callbackHandler, h, he, statusFound]
  · intro msg hm
    simp [callbackHandler, h, hm]

/-- Witness for the amended C5 at a concrete broker and request. -/
theorem callback_missing_witness :
    getQuery reqCallbackEmpty "saml_access_code" = "" ∧
    (callbackHandler demoErrBroker reqCallbackEmpty).calls = [""] ∧
    (callbackHandler demoErrBroker reqCallbackEmpty).outcome
      = .panicked [] "broker failure" :=
  ⟨rfl, (callback_missing_amended demoErrBroker reqCallbackEmpty rfl).1,
   (callback_missing_amended demoErrBroker reqCallbackEmpty rfl).2.2
     "broker failure" rfl⟩

/-- C6: every invocation of the `GET /ssoready-callback` handler calls the
broker's `RedeemSAMLAccessCode` exactly once, with exactly the code
extracted from the request's `saml_access_code` query parameter — whatever
the broker answers. -/
theorem callback_redeems_exactly_once (broker : String → Except String String)
    (r : Request) :
    (callbackHandler broker r).calls = [getQuery r "saml_access_code"] :=
  callback_calls_eq broker r

theorem find?_filter_self (jar : List (String × String)) (k : String) :
    (jar.filter (fun p => p.1 != k)).find? (fun p => p.1 == k) = none := by
  induction jar with
  | nil => rfl
  | cons p rest ih =>
    by_cases hp : p.1 = k
    · simp [List.filter_cons, hp, ih]
    · simp [List.filter_cons, hp, List.find?_cons, ih]

theorem filter_name_idem (jar : List (String × String)) (k : String) :
    (jar.filter (fun p => p.1 != k)).filter (fun p => p.1 != k)
      = jar.filter (fun p => p.1 != k) := by
  induction jar with
  | nil => rfl
  | cons p rest ih =>
    by_cases hp : p.1 = k
    · simp [List.filter_cons, hp, ih]
    · simp [List.filter_cons, hp, ih]

theorem applyOutcome_logout (r : Request) (jar : List (String × String)) :
    applyOutcome jar (logoutHandler r) = jar.filter (fun p => p.1 != "email") := by
  rfl

/-- C7: logout is idempotent. Whatever the browser's session state (cookie
jar), `GET /logout` answers a 302 redirect to `/` whose single `Set-Cookie`
deletes the `email` cookie (so it is never an error); afterwards the jar
holds no `email` cookie (the anonymous state), and running a second logout
leaves the jar exactly as one logout did. -/
theorem logout_idempotent (r1 r2 : Request) (jar : List (String × String)) :
    logoutHandler r1 = .redirect [⟨"email", "", -1⟩] "/" 302 ∧
    jarLookup (applyOutcome jar (logoutHandler r1)) "email" = none ∧
    applyOutcome (applyOutcome jar (logoutHandler r1)) (logoutHandler r2)
      = applyOutcome jar (logoutHandler r1) := by
  refine ⟨rfl, ?_, ?_⟩
  · rw [applyOutcome_logout]
    simp [jarLookup, find?_filter_self]
  · rw [applyOutcome_logout, applyOutcome_logout]
    exact filter_name_idem jar "email"

/-- C8: organization resolution takes the substring after the (first) `@`
of the submitted email: the request `GET /saml-redirect?email=john.doe@example.com`
makes the handler pass the organization identifier `example.com` to the
broker, and in general an email `lpart ++ "@" ++ dpart` whose local part has
no `@` resolves to exactly `dpart`. -/
theorem org_resolution_after_at (broker : String → Except String String) :
    (samlRedirectHandler broker (reqSaml "john.doe@example.com")).calls
        = ["example.com"] ∧
    ∀ lpart dpart : String, '@' ∉ lpart.data →
      (samlRedirectHandler broker (reqSaml (lpart ++ "@" ++ dpart))).calls
        = [dpart] := by
  constructor
  · rw [samlRedirect_calls_eq, getQuery_reqSaml]
    decide
  · intro lpart dpart h
    rw [samlRedirect_calls_eq, getQuery_reqSaml, emailDomain_split lpart dpart h]

/-- Witness for C8 at a concrete broker and split email. -/
theorem org_resolution_after_at_witness :
    '@' ∉ "john.doe".data ∧
    (samlRedirectHandler demoOkBroker
        (reqSaml ("john.doe" ++ "@" ++ "example.com"))).calls = ["example.com"] :=
  ⟨by decide,
   (org_resolution_after_at demoOkBroker).2 "john.doe" "example.com" (by decide)⟩

/-- C9 (implicit behaviour of `strings.Cut`): for every email with more
than one `@` — written through its unique first-`@` decomposition
`lpart ++ "@" ++ rest` with `lpart` free of `@` and `rest` containing a
further `@` — the whole substring `rest` after the first `@` is sent as the
organization identifier (in particular `a@b@c.com` yields `b@c.com`); and
for every email with no `@` at all, the empty string is sent and the
request is not rejected — the broker is still called and its success still
produces the redirect. -/
theorem org_resolution_edge_cases (broker : String → Except String String) :
    (∀ lpart rest : String, '@' ∉ lpart.data → '@' ∈ rest.data →
      (samlRedirectHandler broker (reqSaml (lpart ++ "@" ++ rest))).calls
        = [rest]) ∧
    (samlRedirectHandler broker (reqSaml "a@b@c.com")).calls = ["b@c.com"] ∧
    ∀ e : String, '@' ∉ e.data →
      (samlRedirectHandler broker (reqSaml e)).calls = [""] ∧
      ∀ url, broker "" = Except.ok url →
        (samlRedirectHandler broker (reqSaml e)).outcome
          = .redirect [] url 302 := by
  refine ⟨?_, ?_, ?_⟩
  · intro lpart rest hl _
    rw [samlRedirect_calls_eq, getQuery_reqSaml, emailDomain_split lpart rest hl]
  · rw [samlRedirect_calls_eq, getQuery_reqSaml]
    decide
  · intro e h
    have hd : emailDomain (getQuery (reqSaml e) "email") = "" := by
      rw [getQuery_reqSaml]
      exact emailDomain_of_no_at e h
    constructor
    · rw [samlRedirect_calls_eq, hd]
    · intro url hu
      simp [samlRedirectHandler, hd, hu, statusFound]

/-- Witness for C9 at a concrete broker and requests. -/
theorem org_resolution_edge_cases_witness :
    '@' ∉ "a".data ∧ '@' ∈ "b@c.com".data ∧
    (samlRedirectHandler demoOkBroker (reqSaml ("a" ++ "@" ++ "b@c.com"))).calls
      = ["b@c.com"] ∧
    '@' ∉ "noatsign".data ∧
    (samlRedirectHandler demoOkBroker (reqSaml "noatsign")).calls = [""] ∧
    (samlRedirectHandler demoOkBroker (reqSaml "noatsign")).outcome
      = .redirect [] "https://idp.example/login?org=" 302 :=
  ⟨by decide, by decide,
   (org_resolution_edge_cases demoOkBroker).1 "a" "b@c.com" (by decide) (by decide),
   by decide,
   ((org_resolution_edge_cases demoOkBroker).2.2 "noatsign" (by decide)).1,
   ((org_resolution_edge_cases demoOkBroker).2.2 "noatsign" (by decide)).2
     "https://idp.example/login?org=" rfl⟩

/-- C10 counterexample: a request to `GET /` carrying an `email` cookie
whose value is the empty string receives the anonymous greeting, not a page
rendering that (empty) value as the verified identity: the template's
`{{ or .Email "logged-out user" }}` treats the empty value as falsy. -/
theorem index_empty_cookie_counterexample :
    indexHandler ⟨"/", [], [("email", "")]⟩ = .html "logged-out user" ∧
    HandlerOutcome.html "logged-out user" ≠ HandlerOutcome.html "" := by
  exact ⟨rfl, by decide⟩

/-- C10 (amended): the response of `GET /` is a deterministic function of
the `email` cookie alone — requests agreeing on that cookie get identical
pages; a request with no `email` cookie, or with an empty-valued one,
renders the anonymous greeting `logged-out user`; a request with a
non-empty `email` cookie value renders that value as the identity. -/
theorem index_cookie_determinism :
    (∀ r1 r2 : Request, getCookie r1 "email" = getCookie r2 "email" →
      indexHandler r1 = indexHandler r2) ∧
    (∀ r : Request, getCookie r "email" = none →
      indexHandler r = .html "logged-out user") ∧
    (∀ r : Request, getCookie r "email" = some "" →
      indexHandler r = .html "logged-out user") ∧
    (∀ r : Request, ∀ v : String, getCookie r "email" = some v → v ≠ "" →
      indexHandler r = .html v) := by
  refine ⟨?_, ?_, ?_, ?_⟩
  · intro r1 r2 h
    unfold indexHandler
    rw [h]
  · intro r h
    simp [indexHandler, h]
  · intro r h
    simp [indexHandler, h]
  · intro r v h hv
    simp [indexHandler, h, hv]

/-- Witness for the amended C10 at a concrete request. -/
theorem index_cookie_determinism_witness :
    indexHandler ⟨"/", [], [("email", "alice@example.com")]⟩
      = .html "alice@example.com" :=
  index_cookie_determinism.2.2.2 ⟨"/", [], [("email", "alice@example.com")]⟩
    "alice@example.com" rfl (by decide)
